import Mathlib

/-!
Shallow embedding of the browser-side scripts of the Time_AI repository:
`src/frontend/app.js` (the `app` definitions below) and the unnamed script
`src/unnamed/part_000` (the `btnAll` / `btnSearch` / `btnSchedule` handlers,
`apiGet`/`apiPost` error path, `renderCourses`, `renderAssignments`).

JS values are modelled by `JsValue`; `undefined` is represented by `none` at
`Option JsValue` positions (property lookup on a missing key). Strings are
modelled over `List Char` where character-level work (trim, split) matters,
with `String` wrappers. Host functions (`fetch`, `JSON.parse`) are modelled as
parameters: a `FetchOutcome` carries the network result and the outcome of
parsing the response body.
-/

/-- A JavaScript value as it occurs in this code base: `null`, booleans,
numbers (the scripts only ever build integer numbers; `nan` stands for the
result of `Number` on a non-numeric string), strings, arrays and objects.
Object fields are listed in the object's key-enumeration order. `undefined`
is not a `JsValue`: it only arises from a failed property lookup, modelled
as `none : Option JsValue`. -/
inductive JsValue where
  | null : JsValue
  | bool : Bool → JsValue
  | num : Int → JsValue
  | nan : JsValue
  | str : String → JsValue
  | arr : List JsValue → JsValue
  | obj : List (String × JsValue) → JsValue

/-- A row object, as consumed by the table renderers: its fields in
key-enumeration order. -/
abbrev Row := List (String × JsValue)

/-- Property access `v[k]` on a `JsValue`: a field of an object, `undefined`
(`none`) on a missing key or on any non-object value. -/
def getProp (v : JsValue) (k : String) : Option JsValue :=
  match v with
  | .obj kvs => (kvs.find? (fun p => p.1 == k)).map (fun p => p.2)
  | _ => none

/-- Property access on a row object, `row[c]`. -/
def lookupProp (r : Row) (k : String) : Option JsValue :=
  (r.find? (fun p => p.1 == k)).map (fun p => p.2)

/-- JS truthiness of a possibly-`undefined` value: `undefined`, `null`,
`false`, `0`, `NaN` and `""` are falsy, everything else is truthy. -/
def truthy : Option JsValue → Bool
  | none => false
  | some .null => false
  | some (.bool b) => b
  | some (.num n) => n != 0
  | some .nan => false
  | some (.str s) => s != ""
  | some (.arr _) => true
  | some (.obj _) => true

/-- JS `a || b` on possibly-`undefined` values: the first operand when it is
truthy, otherwise the second. -/
def jsOr (a b : Option JsValue) : Option JsValue :=
  if truthy a then a else b

/-- JS `a || b` with a defined right operand (as in `res.summary || \x7b\x7d`). -/
def jsOrV (a : Option JsValue) (b : JsValue) : JsValue :=
  match a with
  | some v => if truthy (some v) then v else b
  | none => b

/-- Loose equality with null, `x == null`: true exactly for `null` and
`undefined` (used by `total == null` in `renderCourses`). -/
def looseNull : Option JsValue → Bool
  | none => true
  | some .null => true
  | _ => false

mutual

/-- JS `String(v)` / template-literal stringification of a defined value.
Arrays stringify as their elements joined by commas (with `null` elements as
the empty string, see `jsArrParts`), objects as `[object Object]`. Integer
numbers print as in JS. -/
def jsToString : JsValue → String
  | .null => "null"
  | .bool b => cond b "true" "false"
  | .num n => toString n
  | .nan => "NaN"
  | .str s => s
  | .arr vs => String.intercalate "," (jsArrParts vs)
  | .obj _ => "[object Object]"

/-- Element stringification of JS `Array.prototype.join`: `null` (and
`undefined`, which does not occur as an element here) becomes the empty
string, other elements stringify as usual. -/
def jsArrParts : List JsValue → List String
  | [] => []
  | .null :: rest => "" :: jsArrParts rest
  | v :: rest => jsToString v :: jsArrParts rest

end

/-- Template-literal interpolation of a possibly-`undefined` value:
`undefined` prints as the text `undefined`. -/
def tmpl : Option JsValue → String
  | none => "undefined"
  | some v => jsToString v

/-- One table cell of the generic renderers: the source writes
`row[c] ?? ""` into a template literal, so `null` and `undefined` become the
empty string and every other value stringifies
(`src/frontend/app.js` line 12, `src/unnamed/part_000` line 72). -/
def cellOf (r : Row) (c : String) : String :=
  match lookupProp r c with
  | none => ""
  | some .null => ""
  | some v => jsToString v

/-- Whitespace as trimmed by JS `String.prototype.trim` (restricted to the
characters that can occur in this UI's inputs; the full JS set also has the
remaining Unicode space characters, which no claim exercises). -/
def jsWS (c : Char) : Bool :=
  c == ' ' || c == '\t' || c == '\n' || c == '\r' || c == '\x0b' || c == '\x0c' || c == '\u00A0'

/-- Drop leading whitespace. -/
def trimLeftWS : List Char → List Char
  | [] => []
  | c :: cs => if jsWS c then trimLeftWS cs else c :: cs

/-- Drop trailing whitespace. -/
def trimRightWS (l : List Char) : List Char :=
  (trimLeftWS l.reverse).reverse

/-- JS `s.trim()` on the character list of `s`. -/
def jsTrimL (l : List Char) : List Char :=
  trimRightWS (trimLeftWS l)

/-- JS `s.trim()`. -/
def jsTrimS (s : String) : String :=
  String.mk (jsTrimL s.data)

/-- JS `s.split(sep)` for a one-character separator: `""` splits to `[""]`,
separators at the ends produce empty pieces. -/
def splitOnCharL (sep : Char) : List Char → List (List Char)
  | [] => [[]]
  | c :: cs =>
    match splitOnCharL sep cs with
    | [] => if c == sep then [[], []] else [[c]]
    | h :: t => if c == sep then [] :: h :: t else (c :: h) :: t

/-- The `grid_days` expression of the schedule handler
(`src/unnamed/part_000` line 134):
`days.value.split(",").map(s => s.trim()).filter(Boolean)` — split on commas,
trim each piece, drop the falsy (empty) pieces. -/
def gridDaysL (l : List Char) : List (List Char) :=
  ((splitOnCharL ',' l).map jsTrimL).filter (fun x => !x.isEmpty)

/-- Value of an unbroken decimal digit string. -/
def digitsVal (ds : List Char) : Option Nat :=
  match ds with
  | [] => none
  | _ =>
    if ds.all Char.isDigit then
      some (ds.foldl (fun a c => a * 10 + (c.toNat - 48)) 0)
    else none

/-- JS `Number(s)` for a string, restricted to the optionally-signed decimal
integer strings this UI's number inputs supply: whitespace is trimmed, the
empty string is `0`, a non-integer string gives `NaN` (fractional, exponent
and hex forms, which no claim exercises, also land on `NaN` here). -/
def jsNumber (s : String) : JsValue :=
  match jsTrimL s.data with
  | [] => .num 0
  | '-' :: ds =>
    match digitsVal ds with
    | some n => .num (-(n : Int))
    | none => .nan
  | '+' :: ds =>
    match digitsVal ds with
    | some n => .num (n : Int)
    | none => .nan
  | ds =>
    match digitsVal ds with
    | some n => .num (n : Int)
    | none => .nan

/-- JS `Number(input || d)` for a string input and a numeric default literal
`d` (as in `Number(blocks.value || 8)`): the empty string is falsy, so a
blank input yields the default; otherwise `Number` is applied to the input. -/
def numberOr (v : String) (d : Int) : JsValue :=
  if v = "" then .num d else jsNumber v

/-- The table `src/frontend/app.js` `render` builds: the cell texts of the
single `thead` row and the cell texts of each `tbody` row. -/
structure TableView where
  headerCells : List String
  bodyRows : List (List String)

/-- `render` of `src/frontend/app.js` (lines 3-15): an empty list puts a
single `No data` header cell and leaves the body empty; otherwise the columns
are `Object.keys(rows[0])` and each item yields one body row of
`row[c] ?? ""` cells. -/
def render : List Row → TableView
  | [] => ⟨["No data"], []⟩
  | r0 :: rest =>
    ⟨r0.map Prod.fst,
     (r0 :: rest).map (fun r => (r0.map Prod.fst).map (fun c => cellOf r c))⟩

/-- What `renderCourses` / `renderAssignments` put into their wrap element:
either the muted no-data `div`'s text or a table. -/
inductive CoursesView where
  | noData (msg : String)
  | table (t : TableView)

/-- Result of `renderCourses`: the `coursesInfo` text and the content of
`coursesWrap`. -/
structure CoursesRender where
  info : String
  view : CoursesView

/-- `renderCourses` of `src/unnamed/part_000` (lines 53-77). `total` is the
second argument (default `null`, modelled as `some JsValue.null`; a missing
argument would be `none`): the info line is `총 <length>건` when
`total == null`, else `검색 결과 <total>건`. An empty list renders the
`결과 없음` placeholder; otherwise the columns are `Object.keys(list[0])`
and each row yields one table row of `row[c] ?? ""` cells. -/
def renderCourses (list : List Row) (total : Option JsValue) : CoursesRender :=
  ⟨if looseNull total then "총 " ++ toString list.length ++ "건"
    else "검색 결과 " ++ tmpl total ++ "건",
   match list with
   | [] => .noData "결과 없음"
   | r0 :: rest =>
     .table ⟨r0.map Prod.fst,
       (r0 :: rest).map (fun r => (r0.map Prod.fst).map (fun c => cellOf r c))⟩⟩

/-- `renderAssignments` of `src/unnamed/part_000` (lines 79-101): an empty
(or falsy) assignments value renders the `배정 결과가 없습니다.` placeholder;
otherwise a table with the five fixed columns and, per assignment, the
interpolated `a.course_id`, `a.session_index`, `a.day`, `a.block`,
`a.room_id` (plain `$\x7b...\x7d`, so a missing field prints `undefined`;
only the text content of the `day` pill span is modelled). -/
def renderAssignments (assignments : List Row) : CoursesView :=
  match assignments with
  | [] => .noData "배정 결과가 없습니다."
  | l =>
    .table ⟨["course_id", "session", "day", "block", "room"],
      l.map (fun a =>
        [tmpl (lookupProp a "course_id"), tmpl (lookupProp a "session_index"),
         tmpl (lookupProp a "day"), tmpl (lookupProp a "block"),
         tmpl (lookupProp a "room_id")])⟩

/-- Coerce a parsed JSON value to a row object: objects keep their fields,
anything else enumerates no keys. -/
def asRow : JsValue → Row
  | .obj kvs => kvs
  | _ => []

/-- Coerce a parsed JSON value to the list of row objects `renderCourses` /
`renderAssignments` of `src/unnamed/part_000` receive. Only the array-of-
objects shape is meaningful: those renderers run inside their handlers'
`try`, and the claims about them quantify only over spec-shaped values (a
response of another shape would raise a caught TypeError there, a path no
claim here states). The `app.js` side, whose rendering runs outside any
`try`, is modelled exactly instead, by `renderJs` below. -/
def asRows : JsValue → List Row
  | .arr vs => vs.map asRow
  | _ => []

/-- `asRows` after a property lookup that may come back `undefined`. -/
def asRowsO : Option JsValue → List Row
  | some v => asRows v
  | none => []

/-- JS named-property access `v.k` as an expression that can throw: a
TypeError on `null` (the message texts of the TypeErrors in this model are
representative; engine-specific wording is not modelled, the throw/no-throw
control flow is), the `length` of arrays and strings (string length in
UTF-16 units: one per character for the BMP text this UI handles), a field
of objects, `undefined` on primitives and on missing keys. Index-key access,
which only table cells perform, is modelled by `cellEx`. -/
def propEx (v : JsValue) (k : String) : Except String (Option JsValue) :=
  match v with
  | .null => .error ("TypeError: cannot read properties of null reading " ++ k)
  | .obj kvs => .ok (lookupProp kvs k)
  | .arr vs => .ok (if k = "length" then some (.num vs.length) else none)
  | .str s => .ok (if k = "length" then some (.num s.data.length) else none)
  | _ => .ok none

/-- The canonical-array-index reading of a property key: `some i` when the
key is the decimal numeral of `i` without sign or leading zeros and `i` is
below the bound (JS treats only such keys as indices: `x["01"]` is not
`x[1]`). -/
def idxOf (c : String) (n : Nat) : Option Nat :=
  match digitsVal c.data with
  | some i => if toString i = c ∧ i < n then some i else none
  | none => none

/-- `rows[0]` for the shapes reaching that expression: the first element of
an array, the first character of a string (as a one-character string), the
`"0"` field of an object, `undefined` on primitives, a TypeError on
`null`. -/
def index0 : JsValue → Except String (Option JsValue)
  | .null => .error "TypeError: cannot read properties of null reading 0"
  | .arr vs => .ok vs.head?
  | .str s => .ok (s.data.head?.map (fun c => .str (String.mk [c])))
  | .obj kvs => .ok (lookupProp kvs "0")
  | _ => .ok none

/-- The index-key strings `"0"`, ..., `"n-1"`. -/
def indexKeys (n : Nat) : List String :=
  (List.range n).map toString

/-- `Object.keys(x)` on a possibly-`undefined` value: a TypeError on
`undefined` and `null`, an object's keys in enumeration order, the index
keys of a string or array, the empty list on other primitives. -/
def jsKeysO : Option JsValue → Except String (List String)
  | none => .error "TypeError: cannot convert undefined to object"
  | some .null => .error "TypeError: cannot convert null to object"
  | some (.obj kvs) => .ok (kvs.map Prod.fst)
  | some (.str s) => .ok (indexKeys s.data.length)
  | some (.arr vs) => .ok (indexKeys vs.length)
  | some _ => .ok []

/-- One table cell `$\x7br[c] ?? ""\x7d` of `render` where the row itself is
an arbitrary JSON value: a TypeError on a `null` row, field lookup on an
object row (as `cellOf`), canonical-index or `length` access on array and
string rows, `""` (from `undefined ?? ""`) everywhere else. -/
def cellEx (r : JsValue) (c : String) : Except String String :=
  match r with
  | .null => .error ("TypeError: cannot read properties of null reading " ++ c)
  | .obj kvs => .ok (cellOf kvs c)
  | .arr vs =>
    .ok (match idxOf c vs.length with
      | some i =>
        match vs.get? i with
        | some .null => ""
        | some v => jsToString v
        | none => ""
      | none => if c = "length" then toString vs.length else "")
  | .str s =>
    .ok (match idxOf c s.data.length with
      | some i =>
        match s.data.get? i with
        | some ch => String.mk [ch]
        | none => ""
      | none => if c = "length" then toString s.data.length else "")
  | _ => .ok ""

/-- The cells of one row of `render`: `cols.map(c => ...)` evaluates left to
right and the first TypeError aborts the row (its `tr` is then never
appended, since the `innerHTML` assignment never runs). -/
def cellsOfRow (r : JsValue) : List String → Except String (List String)
  | [] => .ok []
  | c :: cs =>
    match cellEx r c with
    | .error m => .error m
    | .ok s =>
      match cellsOfRow r cs with
      | .error m => .error m
      | .ok ss => .ok (s :: ss)

/-- The `rows.forEach` body loop of `render` over an array: the `tr`s
appended before a TypeError aborts the loop, and the error if one was
thrown. -/
def renderBodyLoop (cols : List String) : List JsValue → List (List String) × Option String
  | [] => ([], none)
  | r :: rest =>
    match cellsOfRow r cols with
    | .error m => ([], some m)
    | .ok cells =>
      match renderBodyLoop cols rest with
      | (rs, e) => (cells :: rs, e)

/-- Outcome of one run of `render` of `src/frontend/app.js` on an arbitrary
value: either the completed table, or a thrown TypeError together with the
header (if the run got as far as writing it) and the body rows appended
before the throw. -/
inductive RenderRun where
  | done (t : TableView) : RenderRun
  | threw (header : Option (List String)) (body : List (List String)) (msg : String) : RenderRun

/-- `render` of `src/frontend/app.js` (lines 3-15) on an arbitrary parsed
JSON value, step by step: `!rows.length` throws on `null`; a falsy length
yields the `No data` header; `Object.keys(rows[0])` throws when `rows[0]`
is `undefined` or `null`; the header is written, and then `rows.forEach`
throws on every non-array (after the header) or runs the body loop, whose
own TypeErrors abort it mid-way. On a list of row objects this agrees with
`render` (see `renderJs_arr_objs`). -/
def renderJs (rows : JsValue) : RenderRun :=
  match propEx rows "length" with
  | .error m => .threw none [] m
  | .ok lv =>
    if truthy lv = false then .done ⟨["No data"], []⟩
    else
      match index0 rows with
      | .error m => .threw none [] m
      | .ok r0 =>
        match jsKeysO r0 with
        | .error m => .threw none [] m
        | .ok cols =>
          match rows with
          | .arr vs =>
            match renderBodyLoop cols vs with
            | (body, none) => .done ⟨cols, body⟩
            | (body, some m) => .threw (some cols) body m
          | _ => .threw (some cols) [] "TypeError: rows.forEach is not a function"

/-- `renderJs` on a possibly-`undefined` argument (`render(data.results)`
with a missing field): `undefined.length` throws at the emptiness check. -/
def renderJsO : Option JsValue → RenderRun
  | none => .threw none [] "TypeError: cannot read properties of undefined reading length"
  | some v => renderJs v

/-- An HTTP request the scripts issue. -/
inductive Request where
  | get (url : String) : Request
  | post (url : String) (body : JsValue) : Request

/-- Outcome of one `fetch` of a request, together with the outcome of
`JSON.parse` on the response body (a host function, supplied as data):
either the fetch itself rejects, or a response arrives with status flag
`res.ok`, body text `txt`, and `parse` the result of `JSON.parse txt`
(`Except.error m` when the parse throws a `SyntaxError` with message `m`). -/
inductive FetchOutcome where
  | netError (msg : String) : FetchOutcome
  | response (ok : Bool) (txt : String) (parse : Except String JsValue) : FetchOutcome

/-- The expression `j.detail || j.message || txt` of
`src/unnamed/part_000` lines 30/46, interpolated into `new Error(...)`. -/
def intendedErrThrow (txt : String) (j : JsValue) : String :=
  tmpl (jsOr (getProp j "detail") (jsOr (getProp j "message") (some (.str txt))))

/-- Message of the exception the `try` block of the non-ok branch of
`apiGet`/`apiPost` raises. The block always throws: either `JSON.parse txt`
throws, or the explicit `throw new Error(j.detail || j.message || txt)`
runs. -/
def tryBlockThrownMsg (txt : String) (parse : Except String JsValue) : String :=
  match parse with
  | .error m => m
  | .ok j => intendedErrThrow txt j

/-- The bare `catch \x7b throw new Error(txt) \x7d` of
`src/unnamed/part_000` lines 31/47: it receives every exception the `try`
block raised — including the deliberately thrown
`Error(j.detail || j.message || txt)` — discards it, and throws
`new Error(txt)`. -/
def catchReplaces (txt : String) (_thrownMsg : String) : String :=
  txt

/-- Run of `apiGet`/`apiPost` of `src/unnamed/part_000` (lines 24-50) on a
fetch outcome, as an `Except`: a fetch rejection propagates; on a non-ok
response the try/catch always ends in `throw new Error(txt)` (see
`tryBlockThrownMsg` and `catchReplaces`); on an ok response
`JSON.parse txt` is returned, its `SyntaxError` propagating on a malformed
body. The two helpers share this response handling; the request itself is
modelled separately by `Request`. -/
def apiRun (o : FetchOutcome) : Except String JsValue :=
  match o with
  | .netError m => .error m
  | .response ok txt parse =>
    if ok then parse
    else .error (catchReplaces txt (tryBlockThrownMsg txt parse))

/-- Modelled from the spec's words, for comparison with `apiRun`: the error
message §6/§7 promise — the `detail` or `message` field when the failure
body parses as JSON carrying one, else the raw response text. -/
def specFailMessage (txt : String) (parse : Except String JsValue) : String :=
  match parse with
  | .ok j => intendedErrThrow txt j
  | .error _ => txt

/-- Everything a click handler run does that is visible to the user. -/
inductive HandlerResult where
  | renderedCourses (r : CoursesRender) : HandlerResult
  | renderedTable (meta : String) (t : TableView) : HandlerResult
  | scheduled (summaryText : String) (assignments : CoursesView) : HandlerResult
  | alerted (msg : String) : HandlerResult
  | uncaught (msg : String) : HandlerResult
  | uncaughtMidRender (meta : String) (header : Option (List String))
      (body : List (List String)) (msg : String) : HandlerResult

/-- The alert messages a handler run shows. -/
def alertsOf : HandlerResult → List String
  | .alerted m => [m]
  | _ => []

/-- The state of the schedule form controls read by the `btnSchedule`
handler: the raw string values of the text/number inputs and the checked
flags of the checkboxes (`!!box.checked` is already boolean). -/
structure ScheduleForm where
  reqKo : String
  days : String
  blocks : String
  minutes : String
  noFri : Bool
  prefMorning : Bool
  prefCompact : Bool
  weight : String

/-- The payload built by the `btnSchedule` handler
(`src/unnamed/part_000` lines 128-141), as the field list of the JSON body:
when the trimmed free-text requirement is truthy (non-empty) the body is
just `requirements_ko`; otherwise the seven structured fields are set. -/
def schedulePayload (f : ScheduleForm) : List (String × JsValue) :=
  let reqText := jsTrimS f.reqKo
  if reqText ≠ "" then
    [("requirements_ko", .str reqText)]
  else
    [("grid_days", .arr ((gridDaysL f.days.data).map (fun d => .str (String.mk d)))),
     ("blocks_per_day", numberOr f.blocks 8),
     ("block_minutes", numberOr f.minutes 50),
     ("hard_no_friday_evening", .bool f.noFri),
     ("soft_prefer_morning", .bool f.prefMorning),
     ("soft_prefer_compact_days", .bool f.prefCompact),
     ("soft_weight", numberOr f.weight 1)]

/-- The key list of the structured `/schedule` body, in the order the
handler assigns the fields. -/
def structuredFields : List String :=
  ["grid_days", "blocks_per_day", "block_minutes", "hard_no_friday_evening",
   "soft_prefer_morning", "soft_prefer_compact_days", "soft_weight"]

/-- A schedule form with every input blank and every checkbox unchecked. -/
def blankForm : ScheduleForm :=
  ⟨"", "", "", "", false, false, false, ""⟩

/-- Hex digit of a nibble. -/
def hexDigit (n : Nat) : Char :=
  if n < 10 then Char.ofNat (48 + n) else Char.ofNat (55 + n)

/-- Percent-encoding of one byte. -/
def percentByte (b : Nat) : List Char :=
  ['%', hexDigit (b / 16), hexDigit (b % 16)]

/-- UTF-8 bytes of a character. -/
def utf8Bytes (c : Char) : List Nat :=
  let n := c.toNat
  if n < 0x80 then [n]
  else if n < 0x800 then [0xC0 + n / 64, 0x80 + n % 64]
  else if n < 0x10000 then [0xE0 + n / 4096, 0x80 + (n / 64) % 64, 0x80 + n % 64]
  else [0xF0 + n / 262144, 0x80 + (n / 4096) % 64, 0x80 + (n / 64) % 64, 0x80 + n % 64]

/-- Characters `encodeURIComponent` leaves unescaped: alphanumerics and
`- _ . ! ~ * ' ( )`. -/
def uriUnreserved (c : Char) : Bool :=
  c.isAlpha || c.isDigit ||
    c == '-' || c == '_' || c == '.' || c == '!' || c == '~' || c == '*' ||
    c == Char.ofNat 39 || c == '(' || c == ')'

/-- JS `encodeURIComponent`: unreserved characters pass through, every other
character is replaced by the percent-encoding of its UTF-8 bytes. -/
def encodeURIComponent (s : String) : String :=
  String.mk (s.data.flatMap (fun c =>
    if uriUnreserved c then [c] else (utf8Bytes c).flatMap percentByte))

/-- `const API = ""` of `src/frontend/app.js` line 1. -/
def API : String := ""

/-- The URL `loadAll` fetches (`src/frontend/app.js` line 18). -/
def loadAllUrl : String := API ++ "/courses?limit=100"

/-- The path the `btnAll` handler passes to `apiGet`
(`src/unnamed/part_000` line 106). -/
def btnAllUrl : String := "/courses?limit=100&offset=0"

/-- The URL the `btnSearch` handler fetches for a (trimmed, non-empty)
keyword (`src/unnamed/part_000` line 118). -/
def searchUrl (kw : String) : String :=
  "/search?q=" ++ encodeURIComponent kw ++ "&limit=100&offset=0"

/-- The URL `doSearch` fetches for a (trimmed, non-empty) keyword
(`src/frontend/app.js` line 27). -/
def appSearchUrl (q : String) : String :=
  API ++ "/search?q=" ++ encodeURIComponent q ++ "&limit=100"

/-- The requests one `btnAll` click issues: exactly the one `apiGet`. -/
def btnAllRequests : List Request := [.get btnAllUrl]

/-- The requests one `loadAll` run issues: exactly the one `fetch`. -/
def appLoadAllRequests : List Request := [.get loadAllUrl]

/-- The requests one `btnSearch` click issues: none when the trimmed keyword
is empty (the handler alerts and returns before any fetch,
`src/unnamed/part_000` line 116), else the one search `apiGet`. -/
def btnSearchRequests (kw : String) : List Request :=
  if jsTrimS kw = "" then [] else [.get (searchUrl (jsTrimS kw))]

/-- The requests one `doSearch` run issues: an empty trimmed keyword falls
back to `loadAll` (`src/frontend/app.js` line 26), else the one search
`fetch`. -/
def appDoSearchRequests (q : String) : List Request :=
  if jsTrimS q = "" then appLoadAllRequests else [.get (appSearchUrl (jsTrimS q))]

/-- The requests one `btnSchedule` click issues: exactly the one `apiPost`
with the body `schedulePayload` builds. -/
def btnScheduleRequests (f : ScheduleForm) : List Request :=
  [.post "/schedule" (.obj (schedulePayload f))]

/-- Interpolation of `x ?? "?"` in the summary template: `null` and
`undefined` print the fallback `?`. -/
def nullishStr (o : Option JsValue) (d : String) : String :=
  match o with
  | none => d
  | some .null => d
  | some v => jsToString v

/-- `Array.isArray(s.days) ? s.days.join(",") : ""` of
`src/unnamed/part_000` line 149. -/
def daysJoin (o : Option JsValue) : String :=
  match o with
  | some (.arr vs) => String.intercalate "," (jsArrParts vs)
  | _ => ""

/-- Text content of the summary line the `btnSchedule` handler writes
(`src/unnamed/part_000` lines 145-150), with `s = res.summary || \x7b\x7d`;
the wrapper div and the template's line breaks are not modelled, only the
interpolated text in order. -/
def summaryText (res : JsValue) : String :=
  let s := jsOrV (getProp res "summary") (.obj [])
  "과목 " ++ nullishStr (getProp s "courses") "?" ++ "개 · 방 " ++
    nullishStr (getProp s "rooms") "?" ++ "개 · 강사 " ++
    nullishStr (getProp s "instructors") "?" ++ "명 · " ++
    daysJoin (getProp s "days") ++ " / 일일 " ++
    nullishStr (getProp s "blocks_per_day") "?" ++ "교시"

/-- `res.solution?.assignments || []` of `src/unnamed/part_000` line 152:
optional chaining yields `undefined` when `solution` is nullish, and `||`
replaces any falsy result with the empty array. -/
def solutionAssignments (res : JsValue) : JsValue :=
  match getProp res "solution" with
  | none => .arr []
  | some .null => .arr []
  | some sol =>
    match getProp sol "assignments" with
    | none => .arr []
    | some a => if truthy (some a) then a else .arr []

/-- The `btnAll` click handler of `src/unnamed/part_000` (lines 104-112) on
the outcome of its one request: a successful run renders the courses (the
`total` argument is omitted, defaulting to `null`); any error from `apiGet`
is caught and alerted as `불러오기 실패: <message>`. -/
def btnAllHandler (o : FetchOutcome) : HandlerResult :=
  match apiRun o with
  | .ok data => .renderedCourses (renderCourses (asRows data) (some .null))
  | .error e => .alerted ("불러오기 실패: " ++ e)

/-- The `btnSearch` click handler of `src/unnamed/part_000` (lines 114-124):
a blank (falsy after trim) keyword alerts `키워드를 입력하세요.` and issues no
request; otherwise a successful run renders `data.results` with
`data.total`, and any error from `apiGet` is caught and alerted as
`검색 실패: <message>`. -/
def btnSearchHandler (kw : String) (o : FetchOutcome) : HandlerResult :=
  if jsTrimS kw = "" then .alerted "키워드를 입력하세요."
  else
    match apiRun o with
    | .ok data =>
      .renderedCourses
        (renderCourses (asRowsO (getProp data "results")) (getProp data "total"))
    | .error e => .alerted ("검색 실패: " ++ e)

/-- The `btnSchedule` click handler of `src/unnamed/part_000`
(lines 126-157) on the outcome of its one `apiPost`: a successful run writes
the summary line and renders `res.solution?.assignments || []`; any error is
caught and alerted as `배정 실패: <message>`. -/
def btnScheduleHandler (o : FetchOutcome) : HandlerResult :=
  match apiRun o with
  | .ok res =>
    .scheduled (summaryText res) (renderAssignments (asRows (solutionAssignments res)))
  | .error e => .alerted ("배정 실패: " ++ e)

/-- `loadAll` of `src/frontend/app.js` (lines 17-22) on the outcome of its
one `fetch`. There is no `try`/`catch` and no `res.ok` check: a fetch
rejection or a `res.json()` parse failure leaves the handler as an uncaught
rejection and nothing is alerted; otherwise — whatever the status — the
meta line interpolates `data.length` (throwing before any write when `data`
is `null`) and `render(data)` runs, so a body that is not an array of row
objects can throw an uncaught TypeError mid-render (`uncaughtMidRender`
records the meta text and any header/body rows written before the throw). -/
def appLoadAll (o : FetchOutcome) : HandlerResult :=
  match o with
  | .netError m => .uncaught m
  | .response _ _ parse =>
    match parse with
    | .error m => .uncaught m
    | .ok data =>
      match propEx data "length" with
      | .error m => .uncaught m
      | .ok lv =>
        match renderJs data with
        | .done t => .renderedTable ("표시: " ++ tmpl lv ++ "건") t
        | .threw hdr body m => .uncaughtMidRender ("표시: " ++ tmpl lv ++ "건") hdr body m

/-- `doSearch` of `src/frontend/app.js` (lines 24-31): a blank trimmed query
falls back to `loadAll` (whose request's outcome is then `o`); otherwise the
search response is handled with no `try`/`catch` and no `res.ok` check: the
meta line interpolates `data.total` (throwing before any write when `data`
is `null`) and `render(data.results)` runs, with TypeErrors escaping
uncaught as in `loadAll`. -/
def appDoSearch (q : String) (o : FetchOutcome) : HandlerResult :=
  if jsTrimS q = "" then appLoadAll o
  else
    match o with
    | .netError m => .uncaught m
    | .response _ _ (.error m) => .uncaught m
    | .response _ _ (.ok data) =>
      match propEx data "total" with
      | .error m => .uncaught m
      | .ok tv =>
        match propEx data "results" with
        | .error m => .uncaught m
        | .ok rv =>
          match renderJsO rv with
          | .done t => .renderedTable ("검색결과: " ++ tmpl tv ++ "건") t
          | .threw hdr body m =>
            .uncaughtMidRender ("검색결과: " ++ tmpl tv ++ "건") hdr body m

/-- The parsed JSON body of a successful `/search` response of the shape the
spec gives (§6): a `results` array of row objects and an integer `total`. -/
def searchResponseJson (rows : List Row) (total : Int) : JsValue :=
  .obj [("results", .arr (rows.map JsValue.obj)), ("total", .num total)]

/-- The query string of a URL: what follows the first `?`, if any. -/
def queryOfL (url : List Char) : List Char :=
  match splitOnCharL '?' url with
  | _ :: q :: _ => q
  | _ => []

/-- List-prefix test. -/
def startsWithL (p l : List Char) : Bool :=
  match p, l with
  | [], _ => true
  | _ :: _, [] => false
  | a :: ps, b :: ls => a == b && startsWithL ps ls

/-- Whether a URL's query string carries a `name=` parameter. -/
def hasParam (url name : String) : Bool :=
  (splitOnCharL '&' (queryOfL url.data)).any
    (fun p => startsWithL (name.data ++ ['=']) p)

theorem trimLeftWS_head_not_ws :
    ∀ (l : List Char) (c : Char) (cs : List Char),
      trimLeftWS l = c :: cs → jsWS c = false := by
  intro l
  induction l with
  | nil => intro c cs h; simp [trimLeftWS] at h
  | cons a as ih =>
    intro c cs h
    cases hws : jsWS a with
    | true => rw [trimLeftWS, if_pos hws] at h; exact ih c cs h
    | false =>
      rw [trimLeftWS, if_neg (by simp [hws])] at h
      cases h; exact hws

theorem trimLeftWS_idem (l : List Char) :
    trimLeftWS (trimLeftWS l) = trimLeftWS l := by
  cases h : trimLeftWS l with
  | nil => rfl
  | cons c cs =>
    have hc := trimLeftWS_head_not_ws l c cs h
    rw [trimLeftWS, if_neg (by simp [hc])]

theorem trimLeftWS_suffix (l : List Char) : ∃ p, l = p ++ trimLeftWS l := by
  induction l with
  | nil => exact ⟨[], rfl⟩
  | cons a as ih =>
    cases hws : jsWS a with
    | true =>
      obtain ⟨p, hp⟩ := ih
      exact ⟨a :: p, by rw [trimLeftWS, if_pos hws]; simpa using hp⟩
    | false => exact ⟨[], by simp [trimLeftWS, hws]⟩

theorem trimRightWS_prefix (l : List Char) : ∃ t, l = trimRightWS l ++ t := by
  obtain ⟨p, hp⟩ := trimLeftWS_suffix l.reverse
  refine ⟨p.reverse, ?_⟩
  rw [trimRightWS]
  calc l = l.reverse.reverse := (List.reverse_reverse l).symm
    _ = (p ++ trimLeftWS l.reverse).reverse := by rw [← hp]
    _ = (trimLeftWS l.reverse).reverse ++ p.reverse := List.reverse_append p _

theorem trimRightWS_idem (l : List Char) :
    trimRightWS (trimRightWS l) = trimRightWS l := by
  unfold trimRightWS
  rw [List.reverse_reverse, trimLeftWS_idem]

theorem trimLeftWS_of_jsTrimL (l : List Char) :
    trimLeftWS (jsTrimL l) = jsTrimL l := by
  unfold jsTrimL
  have hm : trimLeftWS (trimLeftWS l) = trimLeftWS l := trimLeftWS_idem l
  cases h : trimRightWS (trimLeftWS l) with
  | nil => rfl
  | cons c cs =>
    obtain ⟨t, ht⟩ := trimRightWS_prefix (trimLeftWS l)
    rw [h] at ht
    have hc : jsWS c = false := by
      apply trimLeftWS_head_not_ws (trimLeftWS l) c (cs ++ t)
      rw [hm, ht, List.cons_append]
    rw [trimLeftWS, if_neg (by simp [hc])]

theorem jsTrimL_idem (l : List Char) : jsTrimL (jsTrimL l) = jsTrimL l := by
  conv_lhs => rw [jsTrimL, trimLeftWS_of_jsTrimL]
  show trimRightWS (trimRightWS (trimLeftWS l)) = jsTrimL l
  rw [trimRightWS_idem]
  rfl

theorem map_obj_asRow (rows : List Row) :
    (rows.map JsValue.obj).map asRow = rows := by
  induction rows with
  | nil => rfl
  | cons r rs ih => simp [asRow, ih]

theorem getProp_search_results (rows : List Row) (total : Int) :
    getProp (searchResponseJson rows total) "results" =
      some (.arr (rows.map JsValue.obj)) := rfl

theorem getProp_search_total (rows : List Row) (total : Int) :
    getProp (searchResponseJson rows total) "total" = some (.num total) := rfl

theorem cellsOfRow_obj (r : Row) (cols : List String) :
    cellsOfRow (.obj r) cols = .ok (cols.map (fun c => cellOf r c)) := by
  induction cols with
  | nil => rfl
  | cons c cs ih => simp [cellsOfRow, cellEx, ih]

theorem renderBodyLoop_objs (cols : List String) (rows : List Row) :
    renderBodyLoop cols (rows.map JsValue.obj) =
      (rows.map (fun r => cols.map (fun c => cellOf r c)), none) := by
  induction rows with
  | nil => rfl
  | cons r rs ih => simp [renderBodyLoop, cellsOfRow_obj, ih]

theorem renderJs_arr_objs (r0 : Row) (rest : List Row) :
    renderJs (.arr ((r0 :: rest).map JsValue.obj)) = .done (render (r0 :: rest)) := by
  have h1 : renderJs (.arr ((r0 :: rest).map JsValue.obj)) =
      if truthy (some (.num (((r0 :: rest).map JsValue.obj).length : Int))) = false
      then RenderRun.done ⟨["No data"], []⟩
      else
        match renderBodyLoop (r0.map Prod.fst) ((r0 :: rest).map JsValue.obj) with
        | (body, none) => RenderRun.done ⟨r0.map Prod.fst, body⟩
        | (body, some m) => RenderRun.threw (some (r0.map Prod.fst)) body m := rfl
  have ht : truthy (some (.num (((r0 :: rest).map JsValue.obj).length : Int))) = true := by
    simp [truthy]
    omega
  rw [h1, ht]
  rw [if_neg (by simp), renderBodyLoop_objs]
  rfl

/-- Claim C1 (code bug). The spec says a failed response whose body is JSON
with a `detail` field surfaces that field's value, but in
`apiGet`/`apiPost` the `throw new Error(j.detail || j.message || txt)`
inside the `try` is itself caught by the bare `catch`, which throws
`new Error(txt)` instead: on the failing input — a non-2xx response with
body `\x7b"detail":"boom"\x7d`, which parses to an object whose `detail` is
`boom` — the code propagates the raw body text, the spec-expected message
(`specFailMessage`, the value the dead inner throw would have carried) is
`boom`, and the two differ; the `btnAll` handler therefore alerts the raw
text. -/
theorem api_error_message_ignores_detail_field :
    apiRun (.response false "\x7b\"detail\":\"boom\"\x7d"
        (.ok (.obj [("detail", .str "boom")]))) =
      .error "\x7b\"detail\":\"boom\"\x7d" ∧
    specFailMessage "\x7b\"detail\":\"boom\"\x7d"
        (.ok (.obj [("detail", .str "boom")])) = "boom" ∧
    "\x7b\"detail\":\"boom\"\x7d" ≠ "boom" ∧
    btnAllHandler (.response false "\x7b\"detail\":\"boom\"\x7d"
        (.ok (.obj [("detail", .str "boom")]))) =
      .alerted ("불러오기 실패: " ++ "\x7b\"detail\":\"boom\"\x7d") := by
  refine ⟨rfl, rfl, by decide, rfl⟩

/-- Claim C2 (counterexample). In `src/frontend/app.js`, `loadAll` has no
`try`/`catch`: a network error is not caught at the call site and no alert
is shown — the rejection escapes the handler. -/
theorem appLoadAll_netError_shows_no_alert :
    appLoadAll (.netError "Failed to fetch") = .uncaught "Failed to fetch" ∧
    alertsOf (appLoadAll (.netError "Failed to fetch")) = [] :=
  ⟨rfl, rfl⟩

/-- Claim C2 (amended). In `src/unnamed/part_000` every failure of the one
request a click issues — network error or non-2xx status (where the
try/catch of `apiGet`/`apiPost` always yields the raw body text) — is
caught in the handler and alerted, and no further request is issued; in
`src/frontend/app.js`, `loadAll` and `doSearch` have no error handling and
never check `res.ok`: network errors and parse failures propagate uncaught
with no alert, a non-2xx response whose body parses as a JSON array of row
objects is silently rendered as data, and parsed bodies that break the
rendering path — `null` (the meta line throws before writing), a JSON
string (`rows.forEach` throws after the meta and header are written), an
object carrying a `length` field (`Object.keys(rows[0])` throws after the
meta, which shows that field, is written) — end as uncaught TypeErrors with
nothing alerted. -/
theorem failure_alerting_split_between_scripts :
    ∀ (m txt pm : String) (parse : Except String JsValue) (r0 : Row) (rest : List Row) (ok : Bool),
      btnAllHandler (.netError m) = .alerted ("불러오기 실패: " ++ m) ∧
      btnAllHandler (.response false txt parse) = .alerted ("불러오기 실패: " ++ txt) ∧
      btnSearchHandler "a" (.netError m) = .alerted ("검색 실패: " ++ m) ∧
      btnSearchHandler "a" (.response false txt parse) = .alerted ("검색 실패: " ++ txt) ∧
      btnScheduleHandler (.netError m) = .alerted ("배정 실패: " ++ m) ∧
      btnScheduleHandler (.response false txt parse) = .alerted ("배정 실패: " ++ txt) ∧
      btnAllRequests.length = 1 ∧
      appLoadAll (.netError m) = .uncaught m ∧
      alertsOf (appLoadAll (.netError m)) = [] ∧
      appLoadAll (.response ok txt (.error pm)) = .uncaught pm ∧
      appLoadAll (.response false txt (.ok .null)) =
        .uncaught "TypeError: cannot read properties of null reading length" ∧
      alertsOf (appLoadAll (.response false txt (.ok .null))) = [] ∧
      appLoadAll (.response false txt (.ok (.arr ((r0 :: rest).map JsValue.obj)))) =
        .renderedTable
          ("표시: " ++ toString ((((r0 :: rest).map JsValue.obj).length : Nat) : Int) ++ "건")
          (render (r0 :: rest)) ∧
      appLoadAll (.response false txt (.ok (.str "ab"))) =
        .uncaughtMidRender "표시: 2건" (some ["0"]) []
          "TypeError: rows.forEach is not a function" ∧
      appLoadAll (.response false txt (.ok (.obj [("length", .num 3)]))) =
        .uncaughtMidRender "표시: 3건" none []
          "TypeError: cannot convert undefined to object" ∧
      appDoSearch "a" (.netError m) = .uncaught m ∧
      alertsOf (appDoSearch "a" (.netError m)) = [] ∧
      appDoSearch "a" (.response false txt (.ok .null)) =
        .uncaught "TypeError: cannot read properties of null reading total" := by
  intro m txt pm parse r0 rest ok
  have hq : ¬(jsTrimS "a" = "") := by decide
  have harr :
      appLoadAll (.response false txt (.ok (.arr ((r0 :: rest).map JsValue.obj)))) =
        .renderedTable
          ("표시: " ++ toString ((((r0 :: rest).map JsValue.obj).length : Nat) : Int) ++ "건")
          (render (r0 :: rest)) := by
    rw [show appLoadAll (.response false txt (.ok (.arr ((r0 :: rest).map JsValue.obj)))) =
        (match renderJs (.arr ((r0 :: rest).map JsValue.obj)) with
          | RenderRun.done t =>
            HandlerResult.renderedTable
              ("표시: " ++ tmpl (some (.num (((r0 :: rest).map JsValue.obj).length : Int))) ++ "건") t
          | RenderRun.threw hdr body mm =>
            HandlerResult.uncaughtMidRender
              ("표시: " ++ tmpl (some (.num (((r0 :: rest).map JsValue.obj).length : Int))) ++ "건")
              hdr body mm)
      from rfl]
    rw [renderJs_arr_objs]
    rfl
  refine ⟨rfl, rfl, ?_, ?_, rfl, rfl, rfl, rfl, rfl, rfl, rfl, rfl, harr, rfl, rfl, ?_, ?_, ?_⟩
  · unfold btnSearchHandler; rw [if_neg hq]; rfl
  · unfold btnSearchHandler; rw [if_neg hq]; rfl
  · unfold appDoSearch; rw [if_neg hq]
  · unfold appDoSearch; rw [if_neg hq]; rfl
  · unfold appDoSearch; rw [if_neg hq]; rfl

/-- Claim C3 (confirmed). Rendering a non-empty list — `render` of
`src/frontend/app.js` and `renderCourses` of `src/unnamed/part_000` alike —
produces a table whose columns are exactly the keys of the first item in
their enumeration order, and whose body has exactly one row per item, each
row being that item's cells under those columns. -/
theorem render_nonempty_one_row_per_item :
    ∀ (r0 : Row) (rest : List Row) (total : Option JsValue),
      (render (r0 :: rest)).headerCells = r0.map Prod.fst ∧
      (render (r0 :: rest)).bodyRows =
        (r0 :: rest).map (fun r => (r0.map Prod.fst).map (fun c => cellOf r c)) ∧
      (render (r0 :: rest)).bodyRows.length = (r0 :: rest).length ∧
      (renderCourses (r0 :: rest) total).view =
        .table ⟨r0.map Prod.fst,
          (r0 :: rest).map (fun r => (r0.map Prod.fst).map (fun c => cellOf r c))⟩ := by
  intro r0 rest total
  refine ⟨rfl, rfl, ?_, rfl⟩
  simp [render]

/-- Claim C4 (confirmed). Rendering an empty list shows a no-data
placeholder and no data rows: `render` writes the single `No data` header
cell and leaves the body empty, `renderCourses` puts the `결과 없음` div in
place of a table (for any `total` argument), and `renderAssignments` puts
the `배정 결과가 없습니다.` div. -/
theorem render_empty_shows_no_data :
    ∀ total : Option JsValue,
      (render []).headerCells = ["No data"] ∧
      (render []).bodyRows = [] ∧
      (renderCourses [] total).view = .noData "결과 없음" ∧
      renderAssignments [] = .noData "배정 결과가 없습니다." := by
  intro total
  exact ⟨rfl, rfl, rfl, rfl⟩

/-- Claim C5 (confirmed). The body of every `POST /schedule` has exactly one
of the two shapes: when the trimmed free-text input is non-empty the only
field is `requirements_ko`, otherwise the fields are exactly the seven
structured ones, never a mixture. -/
theorem schedule_body_two_exclusive_shapes :
    ∀ f : ScheduleForm,
      (schedulePayload f).map Prod.fst =
        if jsTrimS f.reqKo ≠ "" then ["requirements_ko"] else structuredFields := by
  intro f
  simp only [schedulePayload]
  by_cases h : jsTrimS f.reqKo ≠ ""
  · rw [if_pos h, if_pos h]; rfl
  · rw [if_neg h, if_neg h]; rfl

/-- Claim C6 (counterexample). `loadAll` of `src/frontend/app.js` issues a
GET to `/courses` whose URL carries a `limit` parameter but no `offset`
parameter, refuting "every GET request to /courses includes both". -/
theorem loadAll_courses_url_lacks_offset :
    appLoadAllRequests = [.get loadAllUrl] ∧
    hasParam loadAllUrl "limit" = true ∧
    hasParam loadAllUrl "offset" = false := by
  refine ⟨rfl, by decide, by decide⟩

/-- Claim C6 (amended). Both `/courses` GETs include a `limit` parameter;
the `btnAll` handler of `src/unnamed/part_000` also includes `offset`, but
`loadAll` of `src/frontend/app.js` omits `offset`. -/
theorem courses_requests_limit_offset_split :
    btnAllRequests = [.get btnAllUrl] ∧
    hasParam btnAllUrl "limit" = true ∧
    hasParam btnAllUrl "offset" = true ∧
    appLoadAllRequests = [.get loadAllUrl] ∧
    hasParam loadAllUrl "limit" = true ∧
    hasParam loadAllUrl "offset" = false := by
  refine ⟨rfl, by decide, by decide, rfl, by decide, by decide⟩

/-- Claim C7 (confirmed). For a successful `/search` response of the spec's
shape, both scripts render exactly the response's `results` array — one
table row per result — and display exactly the response's `total`:
`doSearch` writes `검색결과: <total>건` and renders `results`, and
`btnSearch` writes `검색 결과 <total>건` and builds the table from
`results`. -/
theorem search_response_rendered_exactly
    (r0 : Row) (rest : List Row) (total : Int) (q txt : String)
    (h : jsTrimS q ≠ "") :
    appDoSearch q (.response true txt (.ok (searchResponseJson (r0 :: rest) total))) =
      .renderedTable ("검색결과: " ++ toString total ++ "건") (render (r0 :: rest)) ∧
    (render (r0 :: rest)).bodyRows.length = (r0 :: rest).length ∧
    btnSearchHandler q (.response true txt (.ok (searchResponseJson (r0 :: rest) total))) =
      .renderedCourses ⟨"검색 결과 " ++ toString total ++ "건",
        .table ⟨r0.map Prod.fst,
          (r0 :: rest).map (fun r => (r0.map Prod.fst).map (fun c => cellOf r c))⟩⟩ := by
  refine ⟨?_, by simp [render], ?_⟩
  · unfold appDoSearch
    rw [if_neg h]
    show (match renderJsO (some (.arr ((r0 :: rest).map JsValue.obj))) with
      | RenderRun.done t =>
        HandlerResult.renderedTable ("검색결과: " ++ tmpl (some (.num total)) ++ "건") t
      | RenderRun.threw hdr body mm =>
        HandlerResult.uncaughtMidRender ("검색결과: " ++ tmpl (some (.num total)) ++ "건")
          hdr body mm) =
      HandlerResult.renderedTable ("검색결과: " ++ toString total ++ "건") (render (r0 :: rest))
    rw [show renderJsO (some (.arr ((r0 :: rest).map JsValue.obj))) =
        RenderRun.done (render (r0 :: rest)) from renderJs_arr_objs r0 rest]
    rfl
  · unfold btnSearchHandler
    rw [if_neg h]
    show HandlerResult.renderedCourses
        (renderCourses (asRowsO (getProp (searchResponseJson (r0 :: rest) total) "results"))
          (getProp (searchResponseJson (r0 :: rest) total) "total")) = _
    rw [getProp_search_results, getProp_search_total]
    show HandlerResult.renderedCourses
        (renderCourses (asRows (.arr ((r0 :: rest).map JsValue.obj)))
          (some (.num total))) = _
    rw [show asRows (.arr ((r0 :: rest).map JsValue.obj)) = r0 :: rest from
      by rw [asRows, map_obj_asRow]]
    rfl

/-- Claim C7 witness: the theorem applied at a concrete one-row response. -/
theorem search_response_rendered_exactly_witness :
    appDoSearch "x" (.response true "t"
        (.ok (searchResponseJson ([("a", JsValue.str "b")] :: []) 1))) =
      .renderedTable ("검색결과: " ++ toString (1 : Int) ++ "건")
        (render ([("a", JsValue.str "b")] :: [])) ∧
    (render ([("a", JsValue.str "b")] :: [])).bodyRows.length =
      (([("a", JsValue.str "b")] :: []) : List Row).length ∧
    btnSearchHandler "x" (.response true "t"
        (.ok (searchResponseJson ([("a", JsValue.str "b")] :: []) 1))) =
      .renderedCourses ⟨"검색 결과 " ++ toString (1 : Int) ++ "건",
        .table ⟨([("a", JsValue.str "b")] : Row).map Prod.fst,
          ([("a", JsValue.str "b")] :: []).map
            (fun r => (([("a", JsValue.str "b")] : Row).map Prod.fst).map
              (fun c => cellOf r c))⟩⟩ :=
  search_response_rendered_exactly [("a", JsValue.str "b")] [] 1 "x" "t" (by decide)

/-- Claim C8 (counterexample). A click on the search button of
`src/unnamed/part_000` with a blank keyword triggers no network call at
all: the handler alerts `키워드를 입력하세요.` and returns before any fetch. -/
theorem btnSearch_blank_click_issues_no_request :
    btnSearchRequests "" = [] ∧
    (btnSearchRequests "").length = 0 ∧
    btnSearchHandler "" (.netError "unused") = .alerted "키워드를 입력하세요." := by
  refine ⟨rfl, rfl, ?_⟩
  unfold btnSearchHandler
  rw [if_pos (by decide)]

/-- Claim C8 (amended). Every button click triggers at most one network
call: the load-all and schedule clicks and `app.js`'s `loadAll` and
`doSearch` runs each issue exactly one, while the `btnSearch` click issues
one exactly when the trimmed keyword is non-empty and none when it is blank
(`doSearch` with a blank query still issues one, by falling back to
`loadAll`). -/
theorem clicks_issue_at_most_one_request :
    ∀ (kw q2 : String) (f : ScheduleForm),
      (btnSearchRequests kw).length ≤ 1 ∧
      btnAllRequests.length = 1 ∧
      (btnScheduleRequests f).length = 1 ∧
      appLoadAllRequests.length = 1 ∧
      (appDoSearchRequests q2).length = 1 ∧
      btnSearchRequests "" = [] := by
  intro kw q2 f
  refine ⟨?_, rfl, rfl, rfl, ?_, rfl⟩
  · unfold btnSearchRequests
    split <;> simp
  · unfold appDoSearchRequests
    split <;> rfl

/-- Claim C9 (confirmed). Every entry of `grid_days` is non-empty and not
whitespace-only (each split piece is trimmed, and the falsy filter drops the
empty ones — trimming an already-trimmed piece changes nothing), and the
structured body built from an all-blank form carries the defaults
`blocks_per_day = 8`, `block_minutes = 50`, `soft_weight = 1` (with an empty
`grid_days` and unchecked flags). -/
theorem grid_days_nonblank_and_blank_defaults :
    (∀ (s x : List Char), x ∈ gridDaysL s → x ≠ [] ∧ jsTrimL x ≠ []) ∧
    schedulePayload blankForm =
      [("grid_days", .arr []),
       ("blocks_per_day", .num 8),
       ("block_minutes", .num 50),
       ("hard_no_friday_evening", .bool false),
       ("soft_prefer_morning", .bool false),
       ("soft_prefer_compact_days", .bool false),
       ("soft_weight", .num 1)] := by
  constructor
  · intro s x hx
    unfold gridDaysL at hx
    rw [List.mem_filter] at hx
    obtain ⟨hmap, hne⟩ := hx
    rw [List.mem_map] at hmap
    obtain ⟨y, _, rfl⟩ := hmap
    have hne' : jsTrimL y ≠ [] := by
      intro hnil
      rw [hnil] at hne
      simp at hne
    exact ⟨hne', by rw [jsTrimL_idem]; exact hne'⟩
  · rfl

/-- Claim C9 witness: the theorem's first part applied to the concrete input
`" M, "`, whose only `grid_days` entry is `M`. -/
theorem grid_days_nonblank_and_blank_defaults_witness :
    (['M'] : List Char) ≠ [] ∧ jsTrimL ['M'] ≠ [] :=
  grid_days_nonblank_and_blank_defaults.1 [' ', 'M', ',', ' '] ['M'] (by decide)

/-- Claim C10 (confirmed). A cell whose looked-up value is `null` or
`undefined` (a key present in the first item but absent from this row) is
rendered as the empty string — in particular not as the text `null` or
`undefined`. -/
theorem null_or_missing_cell_renders_empty :
    ∀ (r : Row) (c : String),
      lookupProp r c = none ∨ lookupProp r c = some .null →
      cellOf r c = "" ∧ cellOf r c ≠ "null" ∧ cellOf r c ≠ "undefined" := by
  intro r c h
  have hc : cellOf r c = "" := by
    cases h with
    | inl h => unfold cellOf; rw [h]
    | inr h => unfold cellOf; rw [h]
  refine ⟨hc, ?_, ?_⟩
  · rw [hc]; decide
  · rw [hc]; decide

/-- Claim C10 witness: the theorem applied to a row whose only field is
explicitly `null`. -/
theorem null_or_missing_cell_renders_empty_witness :
    cellOf [("a", JsValue.null)] "a" = "" ∧
    cellOf [("a", JsValue.null)] "a" ≠ "null" ∧
    cellOf [("a", JsValue.null)] "a" ≠ "undefined" :=
  null_or_missing_cell_renders_empty [("a", JsValue.null)] "a" (Or.inr rfl)
